import Mathlib

/-!
# Sale Transaction Engine — verification development

Shallow embedding of the point-of-sale backend's sale-creation route
(`POST /api/sales`) and its sale formatter, together with proofs of the
specification's testable properties.

Modelling conventions:
* JavaScript numbers are modelled as rationals (`ℚ`); `NaN` (and any
  non-numeric coercion result) is the extra constructor `JsNum.nan`.
  Floating-point drift is outside the model; the route's own arithmetic is
  integer-cent based, so the rational model is exact on the claims.
* `Math.round` is round-half-toward-positive-infinity, i.e. `⌊x + 1/2⌋`.
* Absent (`undefined`/`null`) JSON fields are `Option.none`; string
  truthiness (`!s`) is falsity of `none` and of the empty string.
* The database is explicit state (`DB`); Prisma's `$transaction` is a
  function that either returns an updated state or an error, in which case
  the caller keeps the old state (rollback).  The handler takes two states:
  the one seen by the advisory fetch (`db0`) and the one current when the
  transaction opens (`db1`), so that interleaved concurrent commits are
  expressible.
* `Date.now()` is an explicit `now : ℕ` parameter (milliseconds); the
  transaction timeout is an explicit boolean oracle (it fires or it does
  not), since real time is outside the model.
-/

deriving instance DecidableEq for Except

attribute [local semireducible] Rat.mul Rat.add Rat.sub Rat.inv

namespace Sika

/-- A JavaScript number after `Number(·)` coercion: `NaN` or a rational. -/
inductive JsNum where
  | nan : JsNum
  | num : ℚ → JsNum
deriving DecidableEq

/-- `Number.isFinite` (infinities are folded into `nan`; no claim probes them). -/
def JsNum.isFinite : JsNum → Bool
  | .nan => false
  | .num _ => true

/-- JavaScript `Math.round`: round half toward positive infinity. -/
def jsRound (q : ℚ) : ℤ := ⌊q + 1/2⌋

/-- `toCents` from the route: `Math.round(value * 100)`. -/
def toCents (value : ℚ) : ℤ := jsRound (value * 100)

/-- `centsToAmount` from the route: `cents / 100`. -/
def centsToAmount (cents : ℤ) : ℚ := (cents : ℚ) / 100

/-- JS truthiness of an optional string (`undefined`, `null` and `""` are falsy). -/
def truthyStr : Option String → Bool
  | none => false
  | some s => !(s == "")

/-- `String.prototype.toUpperCase`, character by character (the payment-method
tags are ASCII). -/
def jsToUpper (s : String) : String := ⟨s.data.map Char.toUpper⟩

/-- `String.prototype.trim`: strip leading and trailing whitespace. -/
def jsTrim (s : String) : String :=
  ⟨((s.data.dropWhile Char.isWhitespace).reverse.dropWhile Char.isWhitespace).reverse⟩

/-- One raw entry of the request's `items` array: either not an object, or an
object with optional `productId`, coerced `quantity` and optional `price`. -/
inductive RawItem where
  | notObj : RawItem
  | obj (productId : Option String) (quantity : JsNum) (price : Option JsNum) : RawItem
deriving DecidableEq

/-- The destructured request body
`{ receiptNumber, userId, paymentMethod, items, discount = 0 }`.
`items = none` models a value that is not an array. -/
structure RawBody where
  receiptNumber : Option String
  userId : Option String
  paymentMethod : Option String
  items : Option (List RawItem)
  discount : Option JsNum
deriving DecidableEq

/-- An HTTP error response (`NextResponse.json({ error }, { status })`). -/
structure ErrorResponse where
  status : ℕ
  error : String
deriving DecidableEq

/-- A sanitized item as pushed onto `sanitizedItems`. -/
structure SanitizedItem where
  productId : String
  quantity : ℚ
  priceOverride : Option ℚ
deriving DecidableEq

/-- The validated request handed to the pricing / commit stages. -/
structure SanitizedRequest where
  receiptNumber : Option String
  userId : String
  paymentMethod : String
  items : List SanitizedItem
  discount : ℚ
deriving DecidableEq

/-- The per-item validation loop (route lines 211–235), 1-indexed messages. -/
def sanitizeItems : List RawItem → ℕ → Except ErrorResponse (List SanitizedItem)
  | [], _ => .ok []
  | item :: rest, index =>
    match item with
    | .notObj => .error ⟨400, s!"Item at position {index + 1} is invalid."⟩
    | .obj productId quantity price =>
      if truthyStr productId then
        match quantity with
        | .nan => .error ⟨400, s!"Item {index + 1} quantity must be a positive number."⟩
        | .num q =>
          if q ≤ 0 then
            .error ⟨400, s!"Item {index + 1} quantity must be a positive number."⟩
          else
            match price with
            | none =>
              (sanitizeItems rest (index + 1)).map
                (fun tail => ⟨productId.getD "", q, none⟩ :: tail)
            | some p =>
              match p with
              | .nan => .error ⟨400, s!"Item {index + 1} price must be a positive number."⟩
              | .num v =>
                if v < 0 then
                  .error ⟨400, s!"Item {index + 1} price must be a positive number."⟩
                else
                  (sanitizeItems rest (index + 1)).map
                    (fun tail => ⟨productId.getD "", q, some v⟩ :: tail)
      else
        .error ⟨400, s!"Item {index + 1} is missing productId."⟩

/-- The request validation sequence of the route (lines 189–235), in source
order: userId, payment method, items array non-empty, discount, then the
per-item loop.  The closed payment-method enumeration lives in the generated
Prisma client (not in the repository), so the canonical spellings are the
parameter `pmSet`. -/
def validateRequest (pmSet : List String) (body : RawBody) :
    Except ErrorResponse SanitizedRequest :=
  if !truthyStr body.userId then
    .error ⟨400, "userId is required."⟩
  else
    let normalizedPM := jsToUpper (body.paymentMethod.getD "undefined")
    if !truthyStr body.paymentMethod || !(pmSet.contains normalizedPM) then
      .error ⟨400, "paymentMethod is invalid."⟩
    else
      match body.items with
      | none => .error ⟨400, "At least one sale item is required."⟩
      | some rawItems =>
        if rawItems.isEmpty then
          .error ⟨400, "At least one sale item is required."⟩
        else
          match body.discount.getD (.num 0) with
          | .nan => .error ⟨400, "discount must be a positive number."⟩
          | .num d =>
            if d < 0 then
              .error ⟨400, "discount must be a positive number."⟩
            else
              (sanitizeItems rawItems 0).map
                (fun sanitized =>
                  ⟨body.receiptNumber, body.userId.getD "", normalizedPM, sanitized, d⟩)

/-- A catalog product row (the fields selected by the route). -/
structure ProductRec where
  id : String
  name : String
  sku : Option String
  price : ℚ
deriving DecidableEq

/-- A persisted sale line item; also the shape of the route's `itemsPayload`
entries (`{ productId, quantity, price, total }`). -/
structure SaleItemRow where
  productId : String
  quantity : ℚ
  price : ℚ
  total : ℚ
deriving DecidableEq

/-- A persisted sale row with its line items. -/
structure SaleRow where
  receiptNumber : String
  userId : String
  paymentMethod : String
  subtotal : ℚ
  discount : ℚ
  totalAmount : ℚ
  items : List SaleItemRow
deriving DecidableEq

/-- The persistent state: products, stock rows (productId ↦ quantity; a
missing entry is a product with no stock record) and committed sales. -/
structure DB where
  products : List ProductRec
  stocks : List (String × ℚ)
  sales : List SaleRow
deriving DecidableEq

def DB.findProduct (db : DB) (pid : String) : Option ProductRec :=
  db.products.find? (fun p => p.id == pid)

def DB.stockQty (db : DB) (pid : String) : Option ℚ :=
  (db.stocks.find? (fun e => e.1 == pid)).map (fun e => e.2)

/-- The `Error`s thrown while building `itemsPayload` (route lines 262–294). -/
inductive BuildError where
  | productMissing : BuildError
  | noStockRecord (name : String) : BuildError
  | insufficientStock (name : String) (available : ℚ) : BuildError
  | invalidPrice (name : String) : BuildError
deriving DecidableEq

/-- One step of the `itemsPayload` map: advisory stock check, unit-price
resolution and minor-unit line total.  Returns the payload entry together
with the line total in cents added to `subtotalInCents`. -/
def buildItem (db : DB) (item : SanitizedItem) :
    Except BuildError (SaleItemRow × ℤ) :=
  match db.findProduct item.productId with
  | none => .error .productMissing
  | some product =>
    match db.stockQty item.productId with
    | none => .error (.noStockRecord product.name)
    | some available =>
      if available < item.quantity then
        .error (.insufficientStock product.name available)
      else
        let unitPrice := item.priceOverride.getD product.price
        if unitPrice ≤ 0 then
          .error (.invalidPrice product.name)
        else
          let priceInCents := toCents unitPrice
          let lineTotalInCents := jsRound ((priceInCents : ℚ) * item.quantity)
          .ok (⟨item.productId, item.quantity,
                centsToAmount priceInCents, centsToAmount lineTotalInCents⟩,
               lineTotalInCents)

/-- The full `itemsPayload` map with the running `subtotalInCents`. -/
def buildPayload (db : DB) : List SanitizedItem →
    Except BuildError (List SaleItemRow × ℤ)
  | [] => .ok ([], 0)
  | item :: rest => do
    let (payloadItem, lineCents) ← buildItem db item
    let (tail, subCents) ← buildPayload db rest
    .ok (payloadItem :: tail, lineCents + subCents)

/-- `Array.from(new Set(...))`: deduplication keeping first occurrences. -/
def dedupFirstAux (seen : List String) : List String → List String
  | [] => []
  | x :: xs =>
    if seen.contains x then dedupFirstAux seen xs
    else x :: dedupFirstAux (x :: seen) xs

def dedupFirst (l : List String) : List String := dedupFirstAux [] l

/-- The failures that abort the commit transaction (route lines 301–342):
the in-transaction stock re-check throw, the receipt-number uniqueness
violation raised by `sale.create` (Prisma `P2002` on `receiptNumber`), and
the 30-second transaction timeout (an external event in the model). -/
inductive TxError where
  | stockChanged : TxError
  | uniqueReceipt : TxError
  | timeout : TxError
deriving DecidableEq

/-- Receipt-number resolution inside `tx.sale.create` (route lines 312–315):
the trimmed caller value when it is a non-empty string after trimming,
otherwise the generated `` `SAL-${Date.now()}` ``. -/
def resolveReceipt (raw : Option String) (now : ℕ) : String :=
  match raw with
  | some s => if (jsTrim s).length > 0 then jsTrim s else s!"SAL-{now}"
  | none => s!"SAL-{now}"

/-- The per-item `quantity: { decrement: item.quantity }` updates (route
lines 328–335), applied to the stock table. -/
def decrementStocks (stocks : List (String × ℚ)) (items : List SaleItemRow) :
    List (String × ℚ) :=
  items.foldl
    (fun st item =>
      st.map (fun e => if e.1 == item.productId then (e.1, e.2 - item.quantity) else e))
    stocks

/-- The `prisma.$transaction` body (route lines 301–342): per-line stock
re-check against the state current at commit time, sale + items creation
(with the unique constraint on `receiptNumber`), then the stock decrements.
On any error the caller keeps the pre-transaction state (rollback). -/
def runTransaction (db : DB) (payload : List SaleItemRow)
    (subtotalCents discountCents : ℤ) (rawReceipt : Option String)
    (userId paymentMethod : String) (now : ℕ) (timeoutFires : Bool) :
    Except TxError (SaleRow × DB) :=
  if timeoutFires then .error .timeout
  else
    match payload.find? (fun item =>
        match db.stockQty item.productId with
        | none => true
        | some q => decide (q < item.quantity)) with
    | some _ => .error .stockChanged
    | none =>
      let receipt := resolveReceipt rawReceipt now
      if db.sales.any (fun s => s.receiptNumber == receipt) then
        .error .uniqueReceipt
      else
        let sale : SaleRow :=
          ⟨receipt, userId, paymentMethod,
           centsToAmount subtotalCents, centsToAmount discountCents,
           centsToAmount (subtotalCents - discountCents), payload⟩
        .ok (sale, ⟨db.products, decrementStocks db.stocks payload,
                    db.sales ++ [sale]⟩)

/-- The route's response to a request: HTTP 201 with the created sale, or an
error status and message. -/
inductive PostResult where
  | created (sale : SaleRow) : PostResult
  | failed (status : ℕ) (error : String) : PostResult
deriving DecidableEq

/-- The catch block (route lines 345–362) applied to an `Error` thrown while
building `itemsPayload`: messages containing `Insufficient stock` or
`no stock record` keep their text with status 400; every other thrown
message (`Product missing during sale creation.`, `Invalid price for …`)
falls through to 500 `Unable to create sale.`.  The substring tests are
evaluated here on the exact message templates the route throws. -/
def catchBuild : BuildError → PostResult
  | .productMissing => .failed 500 "Unable to create sale."
  | .noStockRecord name => .failed 400 s!"Product \"{name}\" has no stock record."
  | .insufficientStock name available =>
      .failed 400 s!"Insufficient stock for {name}. Available: {available}"
  | .invalidPrice _ => .failed 500 "Unable to create sale."

/-- The catch block applied to a transaction failure:
`Stock levels changed. Please refresh and try again.` contains neither
`Insufficient stock` nor `no stock record`, so it reaches the fallback and
becomes 500 `Unable to create sale.`; a `P2002` on `receiptNumber` becomes
500 `Receipt number must be unique.`; the timeout error becomes
500 `Unable to create sale.`. -/
def catchTx : TxError → PostResult
  | .stockChanged => .failed 500 "Unable to create sale."
  | .uniqueReceipt => .failed 500 "Receipt number must be unique."
  | .timeout => .failed 500 "Unable to create sale."

/-- The post-validation stages of the handler: product fetch + missing-id
check (against `db0`, the state seen by the advisory read), payload pricing,
discount bound, then the transaction (against `db1`, the state current when
the transaction opens). -/
def postSaleCore (db0 db1 : DB) (now : ℕ) (timeoutFires : Bool)
    (req : SanitizedRequest) : PostResult × DB :=
  let productIds := dedupFirst (req.items.map (fun i => i.productId))
  let missing := productIds.filter (fun id => (db0.findProduct id).isNone)
  if !missing.isEmpty then
    (.failed 404 ("Products not found: " ++ String.intercalate ", " missing), db1)
  else
    match buildPayload db0 req.items with
    | .error e => (catchBuild e, db1)
    | .ok (payload, subtotalCents) =>
      let discountCents := toCents req.discount
      if subtotalCents < discountCents then
        (.failed 400 "Discount cannot exceed subtotal.", db1)
      else
        match runTransaction db1 payload subtotalCents discountCents
            req.receiptNumber req.userId req.paymentMethod now timeoutFires with
        | .error te => (catchTx te, db1)
        | .ok (sale, db') => (.created sale, db')

/-- The whole `POST` handler as a state transformer. -/
def postSale (pmSet : List String) (body : RawBody) (db0 db1 : DB) (now : ℕ)
    (timeoutFires : Bool) : PostResult × DB :=
  match validateRequest pmSet body with
  | .error e => (.failed e.status e.error, db1)
  | .ok req => postSaleCore db0 db1 now timeoutFires req

/-- An attendant (user) row as included by `saleInclude`. -/
structure AttendantRec where
  id : String
  fullName : Option String
  username : Option String
deriving DecidableEq

/-- A sale row as fetched with `saleInclude` (attendant and per-item product
relations), the input of `formatSale`. -/
structure ItemWithProduct where
  id : String
  productId : String
  quantity : ℚ
  price : ℚ
  total : ℚ
  product : Option ProductRec
deriving DecidableEq

structure SaleWithRelations where
  id : String
  receiptNumber : String
  userId : String
  paymentMethod : String
  subtotal : ℚ
  discount : Option ℚ
  totalAmount : ℚ
  createdAt : ℕ
  attendant : Option AttendantRec
  items : List ItemWithProduct
deriving DecidableEq

/-- The nullable attendant summary emitted by `formatSale`. -/
structure FormattedAttendant where
  id : String
  fullName : Option String
  username : Option String
deriving DecidableEq

/-- The nullable product summary emitted by `formatSale` for each item. -/
structure ProductSummary where
  id : String
  name : String
  sku : Option String
deriving DecidableEq

structure FormattedItem where
  id : String
  productId : String
  quantity : ℚ
  price : ℚ
  total : ℚ
  product : Option ProductSummary
deriving DecidableEq

structure FormattedSale where
  id : String
  receiptNumber : String
  userId : String
  paymentMethod : String
  subtotal : ℚ
  discount : ℚ
  totalAmount : ℚ
  createdAt : ℕ
  attendant : Option FormattedAttendant
  items : List FormattedItem
deriving DecidableEq

/-- `formatSale` (route lines 28–60): numbers pass through, `discount` is
defaulted to 0, the attendant and each item's product are passed through as
nullable summaries. -/
def formatSale (sale : SaleWithRelations) : FormattedSale :=
  { id := sale.id
    receiptNumber := sale.receiptNumber
    userId := sale.userId
    paymentMethod := sale.paymentMethod
    subtotal := sale.subtotal
    discount := sale.discount.getD 0
    totalAmount := sale.totalAmount
    createdAt := sale.createdAt
    attendant := sale.attendant.map (fun a => ⟨a.id, a.fullName, a.username⟩)
    items := sale.items.map (fun item =>
      ⟨item.id, item.productId, item.quantity, item.price, item.total,
       item.product.map (fun p => ⟨p.id, p.name, p.sku⟩)⟩) }

/-- The attendant rendering used by the dashboard's recent-activity builder
(`sale.attendant?.fullName ?? sale.attendant?.username ?? 'Walk-in customer'`,
dashboard route). -/
def recentActivityContext (attendant : Option AttendantRec) : String :=
  match attendant with
  | none => "Walk-in customer"
  | some a =>
    match a.fullName with
    | some n => n
    | none => a.username.getD "Walk-in customer"

/-- Modelled from the spec: the display-name → username → "Walk-in customer"
fallback chain that §4.6 and the glossary attribute to the Sale Formatter. -/
def specAttendantRendering (attendant : Option AttendantRec) : String :=
  match attendant with
  | none => "Walk-in customer"
  | some a =>
    match a.fullName with
    | some n => n
    | none => a.username.getD "Walk-in customer"

/-- The attendant rendering strings a formatted sale actually carries: the
non-null string fields of its nullable attendant summary. -/
def attendantRenderings (fs : FormattedSale) : List String :=
  match fs.attendant with
  | none => []
  | some a => a.fullName.toList ++ a.username.toList

/-! ## Concrete instances used by witnesses and counterexamples

The payment-method set is instantiated as a one- or two-element list of
canonical spellings; the universally quantified theorems do not depend on
the concrete enumeration. -/

/-- Stock 5 of a product priced 1.00. -/
def c1DB : DB := ⟨[⟨"p1", "Milk", none, 1⟩], [("p1", 5)], []⟩

/-- A request whose two line items both reference `p1`, quantity 3 each. -/
def c1Body : RawBody :=
  ⟨none, some "u", some "cash",
   some [.obj (some "p1") (.num 3) none, .obj (some "p1") (.num 3) none], none⟩

def c1Sale : SaleRow := ⟨"SAL-7", "u", "CASH", 6, 0, 6, [⟨"p1", 3, 1, 3⟩, ⟨"p1", 3, 1, 3⟩]⟩

def c1DBAfter : DB := ⟨[⟨"p1", "Milk", none, 1⟩], [("p1", -1)], [c1Sale]⟩

/-- Two products priced 9.99 with stock 10 and 4. -/
def c2DB : DB :=
  ⟨[⟨"p1", "Widget", none, 999/100⟩, ⟨"p2", "Gadget", none, 999/100⟩],
   [("p1", 10), ("p2", 4)], []⟩

/-- Mixed request: quantity 2 at catalog price, quantity 1 at override 5.00,
discount 1.50, a padded receipt number. -/
def c2Body : RawBody :=
  ⟨some " R-1 ", some "u", some "card",
   some [.obj (some "p1") (.num 2) none, .obj (some "p2") (.num 1) (some (.num 5))],
   some (.num (3/2))⟩

def c2Sale : SaleRow :=
  ⟨"R-1", "u", "CARD", 2498/100, 3/2, 2348/100,
   [⟨"p1", 2, 999/100, 1998/100⟩, ⟨"p2", 1, 5, 5⟩]⟩

def c2DBAfter : DB :=
  ⟨[⟨"p1", "Widget", none, 999/100⟩, ⟨"p2", "Gadget", none, 999/100⟩],
   [("p1", 8), ("p2", 3)], [c2Sale]⟩

/-- State seen by the advisory fetch: stock 5. -/
def c4DB0 : DB := ⟨[⟨"p1", "Milk", none, 1⟩], [("p1", 5)], []⟩

/-- State when the transaction opens: a concurrent commit left stock 1. -/
def c4DB1 : DB := ⟨[⟨"p1", "Milk", none, 1⟩], [("p1", 1)], []⟩

def c4Body : RawBody :=
  ⟨none, some "u", some "cash", some [.obj (some "p1") (.num 3) none], none⟩

/-- A database with no products, for the missing-product 404 path. -/
def c4MissingDB : DB := ⟨[], [], []⟩

def c4MissingBody : RawBody :=
  ⟨none, some "u", some "cash", some [.obj (some "ghost") (.num 1) none], none⟩

def c4NoUserBody : RawBody :=
  ⟨none, none, some "cash", some [.obj (some "p1") (.num 1) none], none⟩

/-- Stock 5 of a product priced 2.00; subtotal of one unit is 200 cents. -/
def c5DB : DB := ⟨[⟨"p1", "Milk", none, 2⟩], [("p1", 5)], []⟩

/-- Discount 2.00 equal to the 2.00 subtotal. -/
def c5BodyEq : RawBody :=
  ⟨none, some "u", some "cash", some [.obj (some "p1") (.num 1) none], some (.num 2)⟩

def c5SaleEq : SaleRow := ⟨"SAL-7", "u", "CASH", 2, 2, 0, [⟨"p1", 1, 2, 2⟩]⟩

def c5DBAfter : DB := ⟨[⟨"p1", "Milk", none, 2⟩], [("p1", 4)], [c5SaleEq]⟩

/-- Discount 2.01, one minor unit above the 2.00 subtotal. -/
def c5BodyOver : RawBody :=
  ⟨none, some "u", some "cash", some [.obj (some "p1") (.num 1) none],
   some (.num (201/100))⟩

/-- A request with an invalid item (quantity 0) and an invalid discount. -/
def c6Body : RawBody :=
  ⟨none, some "u", some "cash", some [.obj (some "p1") (.num 0) none],
   some (.num (-1))⟩

/-- A request with a non-object item and an invalid discount. -/
def c6WBody : RawBody :=
  ⟨none, some "u", some "cash", some [.notObj], some (.num (-2))⟩

/-- Stock 5 of a product with catalog price 9.99. -/
def c7DB : DB := ⟨[⟨"p1", "Widget", none, 999/100⟩], [("p1", 5)], []⟩

/-- A database already holding a sale committed at millisecond 1700000000000
with the generated receipt number of that instant. -/
def c8Sale1 : SaleRow :=
  ⟨"SAL-1700000000000", "u", "CASH", 1, 0, 1, [⟨"p1", 1, 1, 1⟩]⟩

def c8DB1 : DB := ⟨[⟨"p1", "Milk", none, 1⟩], [("p1", 4)], [c8Sale1]⟩

/-- A second omitted-receipt request arriving in the same millisecond. -/
def c8Body : RawBody :=
  ⟨none, some "u", some "cash", some [.obj (some "p1") (.num 1) none], none⟩

/-- A fetched sale whose attendant relation is null, with one resolvable and
one deleted product. -/
def c9SaleNoAttendant : SaleWithRelations :=
  ⟨"s1", "R-9", "u", "CASH", 5, some 0, 5, 123, none,
   [⟨"i1", "p1", 1, 5, 5, some ⟨"p1", "Milk", some "SKU-1", 999/100⟩⟩,
    ⟨"i2", "p2", 1, 0, 0, none⟩]⟩

/-! ## Helper lemmas -/

theorem centsToAmount_add (a b : ℤ) :
    centsToAmount (a + b) = centsToAmount a + centsToAmount b := by
  unfold centsToAmount
  push_cast
  ring

theorem centsToAmount_sub (a b : ℤ) :
    centsToAmount (a - b) = centsToAmount a - centsToAmount b := by
  unfold centsToAmount
  push_cast
  ring

theorem centsToAmount_zero : centsToAmount 0 = 0 := by
  unfold centsToAmount
  norm_num

theorem centsToAmount_mul_hundred (c : ℤ) : centsToAmount c * 100 = (c : ℚ) := by
  unfold centsToAmount
  field_simp

/-- Characterization of a successful `buildItem` step. -/
theorem buildItem_ok_spec (db : DB) (item : SanitizedItem) (row : SaleItemRow)
    (c : ℤ) (h : buildItem db item = .ok (row, c)) :
    ∃ product available,
      db.findProduct item.productId = some product ∧
      db.stockQty item.productId = some available ∧
      item.quantity ≤ available ∧
      0 < item.priceOverride.getD product.price ∧
      c = jsRound ((toCents (item.priceOverride.getD product.price) : ℚ) * item.quantity) ∧
      row = ⟨item.productId, item.quantity,
             centsToAmount (toCents (item.priceOverride.getD product.price)),
             centsToAmount c⟩ := by
  unfold buildItem at h
  split at h
  · exact absurd h (by simp)
  · rename_i product hproduct
    split at h
    · exact absurd h (by simp)
    · rename_i available havail
      split at h
      · exact absurd h (by simp)
      · rename_i hstock
        dsimp only at h
        split at h
        · exact absurd h (by simp)
        · rename_i hprice
          refine ⟨product, available, hproduct, havail, ?_, ?_, ?_, ?_⟩
          · exact le_of_not_lt hstock
          · exact lt_of_not_le hprice
          · cases h
            rfl
          · cases h
            rfl

/-- A successful `buildPayload` yields exactly the priced rows of its items,
and `subtotalInCents` is the sum of the line totals in cents. -/
theorem buildPayload_ok_spec (db : DB) :
    ∀ (items : List SanitizedItem) (payload : List SaleItemRow) (subC : ℤ),
      buildPayload db items = .ok (payload, subC) →
      (payload.map (fun r => r.total)).sum = centsToAmount subC ∧
      payload.length = items.length
  | [], payload, subC, h => by
    unfold buildPayload at h
    cases h
    simp [centsToAmount_zero]
  | item :: rest, payload, subC, h => by
    unfold buildPayload at h
    cases hb : buildItem db item with
    | error e =>
      rw [hb] at h
      exact absurd h (by simp [Bind.bind, Except.bind])
    | ok pc =>
      rw [hb] at h
      cases ht : buildPayload db rest with
      | error e =>
        rw [ht] at h
        exact absurd h (by simp [Bind.bind, Except.bind])
      | ok ts =>
        rw [ht] at h
        simp only [Bind.bind, Except.bind, pure, Except.pure] at h
        cases h
        have ih := buildPayload_ok_spec db rest ts.1 ts.2 (by rw [ht])
        have hrow := buildItem_ok_spec db item pc.1 pc.2 (by rw [hb])
        obtain ⟨product, available, -, -, -, -, -, hrow_eq⟩ := hrow
        constructor
        · simp only [List.map_cons, List.sum_cons, ih.1, centsToAmount_add, hrow_eq]
        · simp [ih.2]

/-- Characterization of a successful commit transaction. -/
theorem runTransaction_ok_spec (db : DB) (payload : List SaleItemRow)
    (subtotalCents discountCents : ℤ) (rawReceipt : Option String)
    (userId paymentMethod : String) (now : ℕ) (timeoutFires : Bool)
    (sale : SaleRow) (db' : DB)
    (h : runTransaction db payload subtotalCents discountCents rawReceipt
          userId paymentMethod now timeoutFires = .ok (sale, db')) :
    sale = ⟨resolveReceipt rawReceipt now, userId, paymentMethod,
            centsToAmount subtotalCents, centsToAmount discountCents,
            centsToAmount (subtotalCents - discountCents), payload⟩ ∧
    db' = ⟨db.products, decrementStocks db.stocks payload, db.sales ++ [sale]⟩ ∧
    (∀ s' ∈ db.sales, s'.receiptNumber ≠ sale.receiptNumber) ∧
    timeoutFires = false ∧
    (∀ item ∈ payload, ∃ q, db.stockQty item.productId = some q ∧
      item.quantity ≤ q) := by
  unfold runTransaction at h
  split at h
  · exact absurd h (by simp)
  · rename_i htimeout
    split at h
    · exact absurd h (by simp)
    · rename_i hcheck
      dsimp only at h
      split at h
      · exact absurd h (by simp)
      · rename_i hunique
        rw [Except.ok.injEq, Prod.mk.injEq] at h
        obtain ⟨hsale, hdb⟩ := h
        subst hdb
        subst hsale
        refine ⟨rfl, rfl, ?_, by simpa using htimeout, ?_⟩
        · intro s' hs' hscontra
          have : db.sales.any
              (fun s => s.receiptNumber == resolveReceipt rawReceipt now) = true := by
            rw [List.any_eq_true]
            exact ⟨s', hs', by simpa using hscontra⟩
          simp_all
        · intro item hitem
          have := List.find?_eq_none.mp hcheck item hitem
          cases hq : db.stockQty item.productId with
          | none => simp [hq] at this
          | some q =>
            refine ⟨q, rfl, ?_⟩
            simp only [hq, decide_eq_true_eq] at this
            exact le_of_not_lt this

/-- Every rejection produced by the per-item validation loop carries
status 400. -/
theorem sanitizeItems_error_status :
    ∀ (l : List RawItem) (idx : ℕ) (e : ErrorResponse),
      sanitizeItems l idx = .error e → e.status = 400
  | [], idx, e, h => by
    unfold sanitizeItems at h
    exact absurd h (by simp)
  | item :: rest, idx, e, h => by
    unfold sanitizeItems at h
    split at h
    · cases h
      rfl
    · split at h
      · split at h
        · cases h
          rfl
        · split at h
          · cases h
            rfl
          · split at h
            · cases ht : sanitizeItems rest (idx + 1) with
              | error e1 =>
                rw [ht] at h
                simp only [Except.map, Except.error.injEq] at h
                exact h ▸ sanitizeItems_error_status rest (idx + 1) e1 ht
              | ok tail =>
                rw [ht] at h
                exact absurd h (by simp [Except.map])
            · split at h
              · cases h
                rfl
              · split at h
                · cases h
                  rfl
                · cases ht : sanitizeItems rest (idx + 1) with
                  | error e1 =>
                    rw [ht] at h
                    simp only [Except.map, Except.error.injEq] at h
                    exact h ▸ sanitizeItems_error_status rest (idx + 1) e1 ht
                  | ok tail =>
                    rw [ht] at h
                    exact absurd h (by simp [Except.map])
      · cases h
        rfl

/-- Membership in the deduplicated list implies membership in the original. -/
theorem mem_dedupFirstAux (x : String) :
    ∀ (seen l : List String), x ∈ dedupFirstAux seen l → x ∈ l
  | _, [], h => by simp [dedupFirstAux] at h
  | seen, y :: ys, h => by
    unfold dedupFirstAux at h
    split at h
    · exact List.mem_cons_of_mem y (mem_dedupFirstAux x seen ys h)
    · rcases List.mem_cons.mp h with h1 | h2
      · exact h1 ▸ List.mem_cons_self y ys
      · exact List.mem_cons_of_mem y (mem_dedupFirstAux x (y :: seen) ys h2)

theorem mem_dedupFirst (x : String) (l : List String) (h : x ∈ dedupFirst l) :
    x ∈ l :=
  mem_dedupFirstAux x [] l h

/-- A successful `buildPayload` prices every one of its items. -/
theorem buildPayload_ok_items (db : DB) :
    ∀ (items : List SanitizedItem) (payload : List SaleItemRow) (subC : ℤ),
      buildPayload db items = .ok (payload, subC) →
      ∀ item ∈ items, ∃ rc, buildItem db item = .ok rc
  | [], _, _, _, item, hmem => by simp at hmem
  | it :: rest, payload, subC, h, item, hmem => by
    unfold buildPayload at h
    cases hb : buildItem db it with
    | error e =>
      rw [hb] at h
      exact absurd h (by simp [Bind.bind, Except.bind])
    | ok pc =>
      rw [hb] at h
      cases ht : buildPayload db rest with
      | error e =>
        rw [ht] at h
        exact absurd h (by simp [Bind.bind, Except.bind])
      | ok ts =>
        rcases List.mem_cons.mp hmem with h1 | h2
        · exact ⟨pc, h1 ▸ hb⟩
        · exact buildPayload_ok_items db rest ts.1 ts.2 (by rw [ht]) item h2

/-- If the whole payload priced successfully, no requested product id is
missing from the catalog. -/
theorem buildPayload_ok_no_missing (db : DB) (items : List SanitizedItem)
    (payload : List SaleItemRow) (subC : ℤ)
    (hb : buildPayload db items = .ok (payload, subC)) :
    ((dedupFirst (items.map (fun i => i.productId))).filter
      (fun id => (db.findProduct id).isNone)).isEmpty = true := by
  rw [List.isEmpty_iff]
  by_contra hne
  obtain ⟨id, hid⟩ := List.exists_mem_of_ne_nil _ hne
  obtain ⟨hmem, hnone⟩ := List.mem_filter.mp hid
  obtain ⟨item, hitem, rfl⟩ := List.mem_map.mp (mem_dedupFirst _ _ hmem)
  obtain ⟨rc, hrc⟩ := buildPayload_ok_items db items payload subC hb item hitem
  unfold buildItem at hrc
  rw [Option.isNone_iff_eq_none.mp hnone] at hrc
  exact absurd hrc (by simp)

/-- Decomposition of a successful `postSale` run into its stages. -/
theorem postSale_created_spec (pmSet : List String) (body : RawBody)
    (db0 db1 : DB) (now : ℕ) (t : Bool) (sale : SaleRow) (db' : DB)
    (h : postSale pmSet body db0 db1 now t = (.created sale, db')) :
    ∃ req payload subC,
      validateRequest pmSet body = .ok req ∧
      buildPayload db0 req.items = .ok (payload, subC) ∧
      ¬ subC < toCents req.discount ∧
      runTransaction db1 payload subC (toCents req.discount) req.receiptNumber
        req.userId req.paymentMethod now t = .ok (sale, db') := by
  unfold postSale at h
  split at h
  · simp at h
  · rename_i req hreq
    unfold postSaleCore at h
    dsimp only at h
    split at h
    · simp at h
    · rename_i hmiss
      cases hb : buildPayload db0 req.items with
      | error e =>
        rw [hb] at h
        cases e <;> simp [catchBuild] at h
      | ok pr =>
        obtain ⟨payload, subC⟩ := pr
        rw [hb] at h
        dsimp only at h
        split at h
        · simp at h
        · rename_i hd
          cases htx : runTransaction db1 payload subC (toCents req.discount)
              req.receiptNumber req.userId req.paymentMethod now t with
          | error te =>
            rw [htx] at h
            cases te <;> simp [catchTx] at h
          | ok res =>
            obtain ⟨saleR, dbR⟩ := res
            rw [htx] at h
            simp only [Prod.mk.injEq, PostResult.created.injEq] at h
            obtain ⟨hs, hdb⟩ := h
            exact ⟨req, payload, subC, hreq, hb, hd, by rw [htx, hs, hdb]⟩

/-- Recomposition: successful stages yield a successful `postSale` run. -/
theorem postSale_of_stages (pmSet : List String) (body : RawBody)
    (db0 db1 : DB) (now : ℕ) (t : Bool) (req : SanitizedRequest)
    (payload : List SaleItemRow) (subC : ℤ) (sale : SaleRow) (db' : DB)
    (hv : validateRequest pmSet body = .ok req)
    (hb : buildPayload db0 req.items = .ok (payload, subC))
    (hd : ¬ subC < toCents req.discount)
    (htx : runTransaction db1 payload subC (toCents req.discount) req.receiptNumber
        req.userId req.paymentMethod now t = .ok (sale, db')) :
    postSale pmSet body db0 db1 now t = (.created sale, db') := by
  have hm := buildPayload_ok_no_missing db0 req.items payload subC hb
  unfold postSale
  rw [hv]
  unfold postSaleCore
  dsimp only
  rw [hm, hb]
  dsimp only [Bool.not_true]
  rw [if_neg (by simp), if_neg hd, htx]

/-- If the validated request references a missing product id, the handler
returns 404 listing the missing ids and leaves the state unchanged. -/
theorem postSale_missing_spec (pmSet : List String) (body : RawBody)
    (db0 db1 : DB) (now : ℕ) (t : Bool) (req : SanitizedRequest)
    (hv : validateRequest pmSet body = .ok req)
    (hm : ((dedupFirst (req.items.map (fun i => i.productId))).filter
        (fun id => (db0.findProduct id).isNone)).isEmpty = false) :
    postSale pmSet body db0 db1 now t =
      (.failed 404 ("Products not found: " ++ String.intercalate ", "
        ((dedupFirst (req.items.map (fun i => i.productId))).filter
          (fun id => (db0.findProduct id).isNone))), db1) := by
  unfold postSale
  rw [hv]
  unfold postSaleCore
  dsimp only
  rw [hm]
  simp

/-- A pricing-stage error surfaces through the catch block, state unchanged. -/
theorem postSale_buildError_spec (pmSet : List String) (body : RawBody)
    (db0 db1 : DB) (now : ℕ) (t : Bool) (req : SanitizedRequest) (e : BuildError)
    (hv : validateRequest pmSet body = .ok req)
    (hm : ((dedupFirst (req.items.map (fun i => i.productId))).filter
        (fun id => (db0.findProduct id).isNone)).isEmpty = true)
    (hb : buildPayload db0 req.items = .error e) :
    postSale pmSet body db0 db1 now t = (catchBuild e, db1) := by
  unfold postSale
  rw [hv]
  unfold postSaleCore
  dsimp only
  rw [hm, hb]
  dsimp only [Bool.not_true]
  rw [if_neg (by simp)]

/-- A transaction failure surfaces through the catch block, state unchanged. -/
theorem postSale_txError_spec (pmSet : List String) (body : RawBody)
    (db0 db1 : DB) (now : ℕ) (t : Bool) (req : SanitizedRequest)
    (payload : List SaleItemRow) (subC : ℤ) (te : TxError)
    (hv : validateRequest pmSet body = .ok req)
    (hb : buildPayload db0 req.items = .ok (payload, subC))
    (hd : ¬ subC < toCents req.discount)
    (htx : runTransaction db1 payload subC (toCents req.discount) req.receiptNumber
        req.userId req.paymentMethod now t = .error te) :
    postSale pmSet body db0 db1 now t = (catchTx te, db1) := by
  have hm := buildPayload_ok_no_missing db0 req.items payload subC hb
  unfold postSale
  rw [hv]
  unfold postSaleCore
  dsimp only
  rw [hm, hb]
  dsimp only [Bool.not_true]
  rw [if_neg (by simp), if_neg hd, htx]

/-- Every rejection produced by the request validator carries status 400. -/
theorem validateRequest_error_status (pmSet : List String) (body : RawBody)
    (e : ErrorResponse) (h : validateRequest pmSet body = .error e) :
    e.status = 400 := by
  unfold validateRequest at h
  dsimp only at h
  split at h
  · cases h
    rfl
  · split at h
    · cases h
      rfl
    · split at h
      · cases h
        rfl
      · rename_i rawItems heqItems
        split at h
        · cases h
          rfl
        · split at h
          · cases h
            rfl
          · rename_i d heqd
            split at h
            · cases h
              rfl
            · cases ht : sanitizeItems rawItems 0 with
              | error e1 =>
                rw [ht] at h
                simp only [Except.map, Except.error.injEq] at h
                exact h ▸ sanitizeItems_error_status rawItems 0 e1 ht
              | ok sanitized =>
                rw [ht] at h
                exact absurd h (by simp [Except.map])

/-! ## Claim theorems -/

/-- C1: evaluation of the commit path at a request whose two line items
reference the same product (stock 5, quantity 3 + 3).  Both the advisory
check and the in-transaction re-check compare each line separately against
the full stock quantity, so the request commits; the final quantity equals
the quantity before the commit minus the total sold across the request's
line items (5 − (3 + 3)), but it is −1 — a committed state with negative
stock, violating the claimed invariant. -/
theorem c1_duplicate_lines_drive_stock_negative :
    postSale ["CASH"] c1Body c1DB c1DB 7 false = (.created c1Sale, c1DBAfter) ∧
    c1DB.stockQty "p1" = some 5 ∧
    c1DBAfter.stockQty "p1" = some (5 - (3 + 3)) ∧
    c1DBAfter.stockQty "p1" = some (-1) :=
  ⟨by decide, by decide, by decide, by decide⟩

/-- C2: for every request that commits successfully, the committed sale
satisfies `totalAmount = subtotal − discount` and `subtotal = Σ item.total`
exactly, for any mix of quantities, overrides and discounts. -/
theorem c2_committed_sale_totals_exact (pmSet : List String) (body : RawBody)
    (db0 db1 : DB) (now : ℕ) (t : Bool) (sale : SaleRow) (db' : DB)
    (h : postSale pmSet body db0 db1 now t = (.created sale, db')) :
    sale.totalAmount = sale.subtotal - sale.discount ∧
    sale.subtotal = (sale.items.map (fun item => item.total)).sum := by
  obtain ⟨req, payload, subC, -, hb, -, htx⟩ :=
    postSale_created_spec pmSet body db0 db1 now t sale db' h
  obtain ⟨hsale, -, -, -, -⟩ :=
    runTransaction_ok_spec _ _ _ _ _ _ _ _ _ _ _ htx
  obtain ⟨hsum, -⟩ := buildPayload_ok_spec db0 req.items payload subC hb
  subst hsale
  exact ⟨centsToAmount_sub _ _, hsum.symm⟩

/-- C2 witness: the mixed concrete run (catalog price, override, discount)
commits and satisfies both equalities. -/
theorem c2_totals_witness :
    c2Sale.totalAmount = c2Sale.subtotal - c2Sale.discount ∧
    c2Sale.subtotal = (c2Sale.items.map (fun item => item.total)).sum :=
  c2_committed_sale_totals_exact ["CARD"] c2Body c2DB c2DB 7 false c2Sale
    c2DBAfter (by decide)

/-- C3: whenever the handler reports a failure — in particular any failure
inside the commit transaction (stock re-check conflict, receipt-number
uniqueness violation, timeout) — the persisted state it leaves behind is
exactly the state from before the transaction opened: no Sale, SaleItem or
Stock mutation of the request is observable. -/
theorem c3_failure_leaves_state_unchanged (pmSet : List String)
    (body : RawBody) (db0 db1 : DB) (now : ℕ) (t : Bool) (st : ℕ)
    (msg : String) (db' : DB)
    (h : postSale pmSet body db0 db1 now t = (.failed st msg, db')) :
    db' = db1 := by
  unfold postSale at h
  split at h
  · exact (congrArg Prod.snd h).symm
  · rename_i req hreq
    unfold postSaleCore at h
    dsimp only at h
    split at h
    · exact (congrArg Prod.snd h).symm
    · cases hb : buildPayload db0 req.items with
      | error e =>
        rw [hb] at h
        exact (congrArg Prod.snd h).symm
      | ok pr =>
        obtain ⟨payload, subC⟩ := pr
        rw [hb] at h
        dsimp only at h
        split at h
        · exact (congrArg Prod.snd h).symm
        · cases htx : runTransaction db1 payload subC (toCents req.discount)
              req.receiptNumber req.userId req.paymentMethod now t with
          | error te =>
            rw [htx] at h
            exact (congrArg Prod.snd h).symm
          | ok res =>
            obtain ⟨saleR, dbR⟩ := res
            rw [htx] at h
            simp at h

/-- C3 witness: the 30-second timeout aborts an otherwise valid concrete
run with status 500 and the state is untouched. -/
theorem c3_rollback_witness :
    postSale ["CARD"] c2Body c2DB c2DB 7 true =
      (.failed 500 "Unable to create sale.", c2DB) ∧ c2DB = c2DB :=
  ⟨by decide,
   c3_failure_leaves_state_unchanged ["CARD"] c2Body c2DB c2DB 7 true 500
     "Unable to create sale." c2DB (by decide)⟩

/-- C4 counterexample: the stock conflict detected by the in-transaction
re-check is returned as HTTP 500 "Unable to create sale.", not as HTTP 400:
the advisory check passes against the fetched state (stock 5, second
conjunct), the re-check fails against the commit-time state (stock 1), and
the thrown "Stock levels changed…" message matches neither of the substrings
the catch block maps to status 400. -/
theorem c4_commit_conflict_maps_to_500 :
    postSale ["CASH"] c4Body c4DB0 c4DB1 7 false =
      (.failed 500 "Unable to create sale.", c4DB1) ∧
    buildPayload c4DB0 [⟨"p1", 3, none⟩] = .ok ([⟨"p1", 3, 1, 3⟩], 300) :=
  ⟨by decide, by decide⟩

/-- C4 (amended): request-validation failures are 400 with a reason;
missing product ids are 404 listing the missing ids; the advisory
insufficient-stock and missing-stock-record throws are 400 carrying their
message; an invalid resolved price, the in-transaction stock conflict and
the transaction timeout are 500 "Unable to create sale."; a duplicate
receipt number is 500 "Receipt number must be unique.". -/
theorem c4_amended_status_mapping :
    (∀ (pmSet : List String) (body : RawBody) (e : ErrorResponse),
      validateRequest pmSet body = .error e → e.status = 400) ∧
    (∀ (pmSet : List String) (body : RawBody) (db0 db1 : DB) (now : ℕ)
        (t : Bool) (req : SanitizedRequest),
      validateRequest pmSet body = .ok req →
      ((dedupFirst (req.items.map (fun i => i.productId))).filter
        (fun id => (db0.findProduct id).isNone)).isEmpty = false →
      postSale pmSet body db0 db1 now t =
        (.failed 404 ("Products not found: " ++ String.intercalate ", "
          ((dedupFirst (req.items.map (fun i => i.productId))).filter
            (fun id => (db0.findProduct id).isNone))), db1)) ∧
    (∀ (name : String) (available : ℚ),
      catchBuild (.insufficientStock name available) =
        .failed 400 s!"Insufficient stock for {name}. Available: {available}") ∧
    (∀ name : String, catchBuild (.noStockRecord name) =
      .failed 400 s!"Product \"{name}\" has no stock record.") ∧
    (∀ name : String, catchBuild (.invalidPrice name) =
      .failed 500 "Unable to create sale.") ∧
    catchTx .stockChanged = .failed 500 "Unable to create sale." ∧
    catchTx .uniqueReceipt = .failed 500 "Receipt number must be unique." ∧
    catchTx .timeout = .failed 500 "Unable to create sale." :=
  ⟨validateRequest_error_status, postSale_missing_spec,
   fun _ _ => rfl, fun _ => rfl, fun _ => rfl, rfl, rfl, rfl⟩

/-- C4 witness: a missing `userId` is 400; a request naming the absent
product `ghost` is 404 listing it; an advisory stock shortfall is 400 with
its message. -/
theorem c4_status_mapping_witness :
    (⟨400, "userId is required."⟩ : ErrorResponse).status = 400 ∧
    postSale ["CASH"] c4MissingBody c4MissingDB c4MissingDB 7 false =
      (.failed 404 "Products not found: ghost", c4MissingDB) ∧
    catchBuild (.insufficientStock "Milk" 2) =
      .failed 400 "Insufficient stock for Milk. Available: 2" := by
  refine ⟨c4_amended_status_mapping.1 ["CASH"] c4NoUserBody
      ⟨400, "userId is required."⟩ (by decide), ?_, ?_⟩
  · exact (c4_amended_status_mapping.2.1 ["CASH"] c4MissingBody c4MissingDB
      c4MissingDB 7 false ⟨none, "u", "CASH", [⟨"ghost", 1, none⟩], 0⟩
      (by decide) (by decide)).trans (by decide)
  · exact (c4_amended_status_mapping.2.2.1 "Milk" 2).trans (by decide)

/-- C5: with the same validated request and priced payload, a discount whose
cent value equals the subtotal is accepted and the sale commits with total
0, while a discount one minor unit above the subtotal is rejected with 400
"Discount cannot exceed subtotal." without the transaction ever running,
leaving the persisted state unchanged. -/
theorem c5_discount_boundary (pmSet : List String) (body : RawBody)
    (db0 db1 : DB) (now : ℕ) (req : SanitizedRequest)
    (payload : List SaleItemRow) (subC : ℤ) (sale : SaleRow) (db' : DB)
    (hv : validateRequest pmSet body = .ok req)
    (hb : buildPayload db0 req.items = .ok (payload, subC)) :
    (toCents req.discount = subC →
      runTransaction db1 payload subC (toCents req.discount) req.receiptNumber
        req.userId req.paymentMethod now false = .ok (sale, db') →
      postSale pmSet body db0 db1 now false = (.created sale, db') ∧
      sale.totalAmount = 0) ∧
    (toCents req.discount = subC + 1 →
      postSale pmSet body db0 db1 now false =
        (.failed 400 "Discount cannot exceed subtotal.", db1)) := by
  constructor
  · intro heq htx
    refine ⟨postSale_of_stages pmSet body db0 db1 now false req payload subC
      sale db' hv hb (by rw [heq]; exact lt_irrefl subC) htx, ?_⟩
    obtain ⟨hsale, -, -, -, -⟩ :=
      runTransaction_ok_spec _ _ _ _ _ _ _ _ _ _ _ htx
    subst hsale
    show centsToAmount (subC - toCents req.discount) = 0
    rw [heq, sub_self, centsToAmount_zero]
  · intro hgt
    have hm := buildPayload_ok_no_missing db0 req.items payload subC hb
    unfold postSale
    rw [hv]
    unfold postSaleCore
    dsimp only
    rw [hm, hb]
    dsimp only [Bool.not_true]
    rw [if_neg (by simp), if_pos (by rw [hgt]; exact lt_add_one subC)]

/-- C5 witness: discount 2.00 against subtotal 2.00 commits with total 0;
discount 2.01 against the same subtotal of 200 cents is rejected with 400
and the state is unchanged. -/
theorem c5_discount_boundary_witness :
    (postSale ["CASH"] c5BodyEq c5DB c5DB 7 false = (.created c5SaleEq, c5DBAfter) ∧
     c5SaleEq.totalAmount = 0) ∧
    postSale ["CASH"] c5BodyOver c5DB c5DB 7 false =
      (.failed 400 "Discount cannot exceed subtotal.", c5DB) := by
  constructor
  · exact (c5_discount_boundary ["CASH"] c5BodyEq c5DB c5DB 7
      ⟨none, "u", "CASH", [⟨"p1", 1, none⟩], 2⟩ [⟨"p1", 1, 2, 2⟩] 200
      c5SaleEq c5DBAfter (by decide) (by decide)).1 (by decide) (by decide)
  · exact (c5_discount_boundary ["CASH"] c5BodyOver c5DB c5DB 7
      ⟨none, "u", "CASH", [⟨"p1", 1, none⟩], 201/100⟩ [⟨"p1", 1, 2, 2⟩] 200
      c5SaleEq c5DBAfter (by decide) (by decide)).2 (by decide)

/-- C6 counterexample: a request whose first item has an invalid quantity
(0) and whose discount is invalid (−1) is rejected for the discount, not
for the item field — the second conjunct shows the item alone would indeed
have produced the item-field rejection the claim expects. -/
theorem c6_discount_error_precedes_item_error :
    validateRequest ["CASH"] c6Body =
      .error ⟨400, "discount must be a positive number."⟩ ∧
    sanitizeItems [RawItem.obj (some "p1") (.num 0) none] 0 =
      .error ⟨400, "Item 1 quantity must be a positive number."⟩ :=
  ⟨by decide, by decide⟩

/-- C6 (amended): the validator checks, in order, attendant identity,
payment method, non-empty items, then the discount, and only then the
per-item fields — so whenever userId, payment method and the non-emptiness
of items pass and the discount is invalid (NaN or negative), the reported
rejection identifies the discount regardless of the items' validity. -/
theorem c6_amended_discount_checked_before_items (pmSet : List String)
    (body : RawBody) (rawItems : List RawItem)
    (hu : truthyStr body.userId = true)
    (hpm : truthyStr body.paymentMethod = true)
    (hset : pmSet.contains (jsToUpper (body.paymentMethod.getD "undefined")) = true)
    (hitems : body.items = some rawItems)
    (hne : rawItems.isEmpty = false)
    (hdisc : match body.discount.getD (.num 0) with
             | .nan => True
             | .num d => d < 0) :
    validateRequest pmSet body =
      .error ⟨400, "discount must be a positive number."⟩ := by
  have hmem : jsToUpper (body.paymentMethod.getD "undefined") ∈ pmSet :=
    List.mem_of_elem_eq_true hset
  cases hd : body.discount.getD (.num 0) with
  | nan =>
    unfold validateRequest
    rw [hitems]
    simp [hu, hpm, hmem, hne, hd]
  | num d =>
    rw [hd] at hdisc
    dsimp only at hdisc
    unfold validateRequest
    rw [hitems]
    simp [hu, hpm, hmem, hne, hd, hdisc]

/-- C6 witness: a request with a non-object item and discount −2 is
rejected for the discount. -/
theorem c6_order_witness :
    validateRequest ["CASH"] c6WBody =
      .error ⟨400, "discount must be a positive number."⟩ :=
  c6_amended_discount_checked_before_items ["CASH"] c6WBody [.notObj]
    (by decide) (by decide) (by decide) (by decide) (by decide)
    (by show (-2 : ℚ) < 0; norm_num)

/-- C7: for every successfully priced item, the charged unit price is the
minor-unit value of the caller-supplied override when present, otherwise of
the catalog price, and the line total in cents is
`round(unitPriceMinor × quantity)`; concretely, catalog price 9.99 at
quantity 2 yields the 19.98 line total, and an override of 5.00 against
catalog price 9.99 charges 5.00. -/
theorem c7_unit_price_resolution_and_line_total (db : DB)
    (item : SanitizedItem) (product : ProductRec) (row : SaleItemRow) (c : ℤ)
    (hp : db.findProduct item.productId = some product)
    (hb : buildItem db item = .ok (row, c)) :
    row.price = centsToAmount (toCents (item.priceOverride.getD product.price)) ∧
    c = jsRound ((toCents (item.priceOverride.getD product.price) : ℚ) * item.quantity) ∧
    row.total = centsToAmount c ∧
    buildItem c7DB ⟨"p1", 2, none⟩ = .ok (⟨"p1", 2, 999/100, 1998/100⟩, 1998) ∧
    buildItem c7DB ⟨"p1", 1, some 5⟩ = .ok (⟨"p1", 1, 5, 5⟩, 500) := by
  obtain ⟨product1, available, hp1, -, -, -, hc, hrow⟩ :=
    buildItem_ok_spec db item row c hb
  rw [hp] at hp1
  injection hp1 with hp1
  subst hp1
  subst hrow
  exact ⟨rfl, hc, rfl, by decide, by decide⟩

/-- C7 witness: the catalog-price line (9.99 × 2) instantiates the
resolution rule and the minor-unit line-total formula. -/
theorem c7_pricing_witness :
    (⟨"p1", 2, 999/100, 1998/100⟩ : SaleItemRow).price =
      centsToAmount (toCents ((none : Option ℚ).getD (999/100))) ∧
    (1998 : ℤ) = jsRound ((toCents ((none : Option ℚ).getD (999/100)) : ℚ) * 2) := by
  have h := c7_unit_price_resolution_and_line_total c7DB ⟨"p1", 2, none⟩
    ⟨"p1", "Widget", none, 999/100⟩ ⟨"p1", 2, 999/100, 1998/100⟩ 1998
    (by decide) (by decide)
  exact ⟨h.1, h.2.1⟩

/-- C8 counterexample: two sale creations with omitted (or
whitespace-only) receipt numbers in the same millisecond generate the same
`SAL-<timestamp>` value — and the second request then fails the uniqueness
constraint with 500 "Receipt number must be unique." instead of committing
with a distinct generated value. -/
theorem c8_same_millisecond_receipts_collide :
    resolveReceipt none 1700000000000 = resolveReceipt (some " ") 1700000000000 ∧
    postSale ["CASH"] c8Body c8DB1 c8DB1 1700000000000 false =
      (.failed 500 "Receipt number must be unique.", c8DB1) :=
  ⟨by decide, by decide⟩

/-- C8 (amended): a supplied receipt number that is non-empty after trimming
is stored trimmed; an omitted or trimmed-empty receipt number is generated
as `SAL-` followed by the creation millisecond (so two omissions collide
exactly when they share that millisecond); and a commit only succeeds when
its receipt number differs from every already-committed sale's, so any two
committed sales carry distinct receipt numbers. -/
theorem c8_amended_receipt_trim_and_uniqueness (db : DB)
    (payload : List SaleItemRow) (subC dC : ℤ) (r : Option String)
    (uid pm : String) (now : ℕ) (t : Bool) (sale : SaleRow) (db' : DB)
    (hok : runTransaction db payload subC dC r uid pm now t = .ok (sale, db')) :
    (∀ s, r = some s → (jsTrim s).length > 0 → sale.receiptNumber = jsTrim s) ∧
    ((r = none ∨ ∃ s, r = some s ∧ (jsTrim s).length = 0) →
      sale.receiptNumber = s!"SAL-{now}") ∧
    (∀ prior ∈ db.sales, prior.receiptNumber ≠ sale.receiptNumber) ∧
    db'.sales = db.sales ++ [sale] := by
  obtain ⟨hsale, hdb, huniq, -, -⟩ :=
    runTransaction_ok_spec _ _ _ _ _ _ _ _ _ _ _ hok
  subst hsale
  refine ⟨?_, ?_, huniq, by rw [hdb]⟩
  · intro s hr hlen
    show resolveReceipt r now = jsTrim s
    rw [hr]
    unfold resolveReceipt
    dsimp only
    rw [if_pos hlen]
  · intro hr
    show resolveReceipt r now = s!"SAL-{now}"
    rcases hr with rfl | ⟨s, rfl, hlen⟩
    · rfl
    · unfold resolveReceipt
      dsimp only
      rw [if_neg (by omega)]

/-- C8 witness: the padded receipt " R-1 " is stored as its trimmed value
and the committed sale is appended to the sales table. -/
theorem c8_receipt_witness :
    c2Sale.receiptNumber = jsTrim " R-1 " ∧
    c2DBAfter.sales = c2DB.sales ++ [c2Sale] := by
  have h := c8_amended_receipt_trim_and_uniqueness c2DB
    [⟨"p1", 2, 999/100, 1998/100⟩, ⟨"p2", 1, 5, 5⟩] 2498 150 (some " R-1 ")
    "u" "CARD" 7 false c2Sale c2DBAfter (by decide)
  exact ⟨h.1 " R-1 " rfl (by decide), h.2.2.2⟩

/-- C9 counterexample: `formatSale` applied to a sale whose attendant
relation is null emits `attendant = null` — the formatted output carries
none of the three claimed renderings, even though the spec's fallback chain
would require the literal "Walk-in customer" here. -/
theorem c9_formatSale_carries_no_rendering :
    specAttendantRendering c9SaleNoAttendant.attendant = "Walk-in customer" ∧
    attendantRenderings (formatSale c9SaleNoAttendant) = [] ∧
    (formatSale c9SaleNoAttendant).attendant = none :=
  ⟨by decide, by decide, by decide⟩

/-- C9 (amended): `formatSale` passes the attendant through as a nullable
record of display name and username without applying any fallback chain —
the display-name → username → "Walk-in customer" rendering is applied by
the dashboard's recent-activity builder, which agrees with the spec's chain
on every input — and each formatted item carries a nullable product summary
of name and sku for the case of a deleted product. -/
theorem c9_amended_attendant_passthrough (sale : SaleWithRelations) :
    (formatSale sale).attendant =
      sale.attendant.map (fun a => ⟨a.id, a.fullName, a.username⟩) ∧
    (formatSale sale).items = sale.items.map (fun item =>
      ⟨item.id, item.productId, item.quantity, item.price, item.total,
       item.product.map (fun p => ⟨p.id, p.name, p.sku⟩)⟩) ∧
    recentActivityContext sale.attendant = specAttendantRendering sale.attendant :=
  ⟨rfl, rfl, rfl⟩

/-- C10: for every successfully priced item, the persisted unit price is the
resolved price rounded to the nearest cent (`round(price × 100) / 100`), and
both the persisted price and the line total are exact whole numbers of minor
units; concretely, a sub-cent override of 5.005 is silently rounded and
persisted as 5.01. -/
theorem c10_persisted_price_rounded_to_cents (db : DB) (item : SanitizedItem)
    (product : ProductRec) (row : SaleItemRow) (c : ℤ)
    (hp : db.findProduct item.productId = some product)
    (hb : buildItem db item = .ok (row, c)) :
    row.price =
      centsToAmount (jsRound ((item.priceOverride.getD product.price) * 100)) ∧
    row.price * 100 = ((toCents (item.priceOverride.getD product.price) : ℤ) : ℚ) ∧
    row.total * 100 = ((c : ℤ) : ℚ) ∧
    buildItem c7DB ⟨"p1", 1, some (1001/200)⟩ =
      .ok (⟨"p1", 1, 501/100, 501/100⟩, 501) := by
  obtain ⟨product1, available, hp1, -, -, -, -, hrow⟩ :=
    buildItem_ok_spec db item row c hb
  rw [hp] at hp1
  injection hp1 with hp1
  subst hp1
  subst hrow
  exact ⟨rfl, centsToAmount_mul_hundred _, centsToAmount_mul_hundred _, by decide⟩

/-- C10 witness: the sub-cent override 5.005 instantiates the rounding rule
and the whole-number-of-cents property of the persisted price. -/
theorem c10_rounding_witness :
    (⟨"p1", 1, 501/100, 501/100⟩ : SaleItemRow).price =
      centsToAmount (jsRound (((some (1001/200) : Option ℚ).getD (999/100)) * 100)) ∧
    (⟨"p1", 1, 501/100, 501/100⟩ : SaleItemRow).price * 100 =
      ((toCents ((some (1001/200) : Option ℚ).getD (999/100)) : ℤ) : ℚ) := by
  have h := c10_persisted_price_rounded_to_cents c7DB ⟨"p1", 1, some (1001/200)⟩
    ⟨"p1", "Widget", none, 999/100⟩ ⟨"p1", 1, 501/100, 501/100⟩ 501
    (by decide) (by decide)
  exact ⟨h.1, h.2.1⟩

end Sika
